import Mathlib

/-!
Verification development for the Drug-Safety-Calculator backend
(`backend_app.py`): a Flask app with two endpoints, `save_data` and
`save_suggestion`, each of which lazily initializes a CSV store and
appends one normalized row per accepted JSON submission.

Shallow embedding notes.
* JSON values are modelled by the inductive `Json`.  Python `None` and the
  JSON `null` that `flask.request.get_json()` produces are identified as
  `Json.null`.  JSON numbers are modelled as integers; floating-point
  payload numbers are outside the model.
* A CSV store file is modelled as `Option (List Row)`: `none` means the
  file does not exist; a `Row` is the list of cell values handed to the
  csv writer (the csv module renders `Json.null` cells as the empty
  field, one physical record per `writerow` call).
* The filesystem and the clock are external collaborators: each request
  takes the current `datetime.now().isoformat()` string as a parameter
  `now`, and directory/file-creation faults inside `initialize_csv` are
  modelled by the boolean oracle `osOk`.  Write faults after a successful
  existence check (the `IOError` handlers) are filesystem events outside
  the state model.
* `json.dumps` (default separators, `ensure_ascii=True`) is embedded as
  `dumps`; the canonical decoder for that encoding is `loads`.
-/

/-- JSON values as produced by `flask.request.get_json()`.  `null` doubles
as the Python `None` value; numbers are modelled as integers. -/
inductive Json where
  | null : Json
  | bool : Bool → Json
  | num : Int → Json
  | str : String → Json
  | arr : List Json → Json
  | obj : List (String × Json) → Json

/-- Lookup in a Python dict built from parsed JSON (keys are unique; the
first match is the binding).  `none` means the key is absent. -/
def alookup (kvs : List (String × Json)) (k : String) : Option Json :=
  (kvs.find? (fun p => p.1 = k)).map (fun p => p.2)

/-- Python truthiness of a JSON value (`bool(x)`): `None`, `False`, `0`,
`""`, `[]` and the empty dict are falsy. -/
def Json.truthy : Json → Bool
  | .null => false
  | .bool b => b
  | .num n => n != 0
  | .str s => s != ""
  | .arr xs => !xs.isEmpty
  | .obj kvs => !kvs.isEmpty

/-- The opening-brace character, written numerically. -/
def lbrace : Char := Char.ofNat 123

/-- The closing-brace character, written numerically. -/
def rbrace : Char := Char.ofNat 125

/-- Four lowercase hex digits of `n % 65536`, as in Python `'\u%04x'`. -/
def hex4 (n : Nat) : List Char :=
  [Nat.digitChar (n / 4096 % 16), Nat.digitChar (n / 256 % 16),
   Nat.digitChar (n / 16 % 16), Nat.digitChar (n % 16)]

/-- Escaping of one character as in `json.dumps` (`ensure_ascii=True`): the
escape table covers backslash, quote and the short control escapes;
everything outside `0x20`–`0x7e` becomes `\uXXXX`, with a surrogate pair
for astral code points. -/
def escapeChar (c : Char) : List Char :=
  if c = '"' then ['\\', '"']
  else if c = '\\' then ['\\', '\\']
  else if c = Char.ofNat 8 then ['\\', 'b']
  else if c = Char.ofNat 9 then ['\\', 't']
  else if c = Char.ofNat 10 then ['\\', 'n']
  else if c = Char.ofNat 12 then ['\\', 'f']
  else if c = Char.ofNat 13 then ['\\', 'r']
  else if 32 ≤ c.toNat ∧ c.toNat ≤ 126 then [c]
  else if c.toNat < 65536 then '\\' :: 'u' :: hex4 c.toNat
  else
    ('\\' :: 'u' :: hex4 (55296 + (c.toNat - 65536) / 1024)) ++
      ('\\' :: 'u' :: hex4 (56320 + (c.toNat - 65536) % 1024))

/-- Escape every character of a string body. -/
def escList : List Char → List Char
  | [] => []
  | c :: cs => escapeChar c ++ escList cs

/-- Decimal digits of a natural number, most significant first
(Python `str(n)` for `n ≥ 0`). -/
def natChars (n : Nat) : List Char :=
  if n < 10 then [Nat.digitChar n]
  else natChars (n / 10) ++ [Nat.digitChar (n % 10)]
decreasing_by exact Nat.div_lt_self (by omega) (by omega)

/-- Python `str(i)` for an integer. -/
def intChars (i : Int) : List Char :=
  if i < 0 then '-' :: natChars i.natAbs else natChars i.toNat

mutual

/-- Characters of `json.dumps(v)` with the default separators `", "` and
`": "` and `ensure_ascii=True`. -/
def dumpsL : Json → List Char
  | .null => "null".data
  | .bool true => "true".data
  | .bool false => "false".data
  | .num i => intChars i
  | .str s => '"' :: (escList s.data ++ ['"'])
  | .arr [] => ['[', ']']
  | .arr (x :: xs) => '[' :: (dumpsL x ++ dumpsTail xs ++ [']'])
  | .obj [] => [lbrace, rbrace]
  | .obj (kv :: kvs) => lbrace :: (dumpsKV kv ++ dumpsMTail kvs ++ [rbrace])

/-- Comma-space separated continuation of an array body. -/
def dumpsTail : List Json → List Char
  | [] => []
  | x :: xs => ',' :: ' ' :: (dumpsL x ++ dumpsTail xs)

/-- One `"key": value` member. -/
def dumpsKV : String × Json → List Char
  | (k, v) => '"' :: (escList k.data ++ ['"', ':', ' ']) ++ dumpsL v

/-- Comma-space separated continuation of an object body. -/
def dumpsMTail : List (String × Json) → List Char
  | [] => []
  | kv :: kvs => ',' :: ' ' :: (dumpsKV kv ++ dumpsMTail kvs)

end

/-- Python `json.dumps` on the model. -/
def dumps (v : Json) : String := String.mk (dumpsL v)

/-- Numeric value of a hex digit character (`int(c, 16)`). -/
def hexCharVal (c : Char) : Option Nat :=
  if '0' ≤ c ∧ c ≤ '9' then some (c.toNat - 48)
  else if 'a' ≤ c ∧ c ≤ 'f' then some (c.toNat - 87)
  else if 'A' ≤ c ∧ c ≤ 'F' then some (c.toNat - 55)
  else none

/-- Value of a four-hex-digit escape body. -/
def decodeHex4 (a b c d : Char) : Option Nat :=
  match hexCharVal a, hexCharVal b, hexCharVal c, hexCharVal d with
  | some x, some y, some z, some w => some (4096 * x + 256 * y + 16 * z + w)
  | _, _, _, _ => none

/-- Decoding of a single-character string escape. -/
def unescapeSimple (c : Char) : Option Char :=
  if c = '"' then some '"'
  else if c = '\\' then some '\\'
  else if c = '/' then some '/'
  else if c = 'b' then some (Char.ofNat 8)
  else if c = 'f' then some (Char.ofNat 12)
  else if c = 'n' then some (Char.ofNat 10)
  else if c = 'r' then some (Char.ofNat 13)
  else if c = 't' then some (Char.ofNat 9)
  else none

/-- Decoder for a string body (after the opening quote), returning the
decoded characters and the input after the closing quote.  Surrogate
pairs recombine into one scalar; lone surrogates and raw control
characters are rejected.  The fuel bounds the number of decoded
characters; one unit is spent per produced character. -/
def parseStrChars : Nat → List Char → Option (List Char × List Char)
  | 0, _ => none
  | _ + 1, [] => none
  | fuel + 1, c :: rest =>
    if c = '"' then some ([], rest)
    else if c = '\\' then
      match rest with
      | [] => none
      | e :: rest2 =>
        if e = 'u' then
          match rest2 with
          | a :: b :: c2 :: d :: rest3 =>
            match decodeHex4 a b c2 d with
            | none => none
            | some n =>
              if 55296 ≤ n ∧ n < 56320 then
                match rest3 with
                | s1 :: s2 :: a2 :: b2 :: c3 :: d2 :: rest4 =>
                  if s1 = '\\' ∧ s2 = 'u' then
                    match decodeHex4 a2 b2 c3 d2 with
                    | none => none
                    | some m =>
                      if 56320 ≤ m ∧ m < 57344 then
                        match parseStrChars fuel rest4 with
                        | none => none
                        | some (s, r) =>
                          some (Char.ofNat (65536 + (n - 55296) * 1024 + (m - 56320)) :: s, r)
                      else none
                  else none
                | _ => none
              else if 56320 ≤ n ∧ n < 57344 then none
              else
                match parseStrChars fuel rest3 with
                | none => none
                | some (s, r) => some (Char.ofNat n :: s, r)
          | _ => none
        else
          match unescapeSimple e with
          | none => none
          | some ch =>
            match parseStrChars fuel rest2 with
            | none => none
            | some (s, r) => some (ch :: s, r)
    else if c.toNat < 32 then none
    else
      match parseStrChars fuel rest with
      | none => none
      | some (s, r) => some (c :: s, r)

/-- Decoder for a string body, with fuel derived from the input length
(ample, since each decoded character consumes input). -/
def parseStr (cs : List Char) : Option (List Char × List Char) :=
  parseStrChars (cs.length + 1) cs

/-- Numeric value of a run of decimal digit characters. -/
def digitsVal (ds : List Char) : Nat :=
  ds.foldl (fun acc c => 10 * acc + (c.toNat - 48)) 0

/-- Decoder for an unsigned decimal literal. -/
def parseNat (cs : List Char) : Option (Nat × List Char) :=
  let ds := cs.takeWhile (fun c => c.isDigit)
  if ds.isEmpty then none else some (digitsVal ds, cs.drop ds.length)

/-- Match an expected literal continuation. -/
def expectLit : List Char → List Char → Option (List Char)
  | [], cs => some cs
  | _ :: _, [] => none
  | p :: ps, c :: cs => if c = p then expectLit ps cs else none

/-- Decoder for the `", "`-separated element list of a non-empty array,
up to and including the closing bracket.  The element decoder `pv` is a
parameter; the fuel bounds the number of elements. -/
def parseElemsF (pv : List Char → Option (Json × List Char)) :
    Nat → List Char → Option (List Json × List Char)
  | 0, _ => none
  | fuel + 1, cs =>
    match pv cs with
    | none => none
    | some (v, r) =>
      match r with
      | ']' :: r2 => some ([v], r2)
      | ',' :: ' ' :: r2 =>
        match parseElemsF pv fuel r2 with
        | none => none
        | some (vs, r3) => some (v :: vs, r3)
      | _ => none

/-- Decoder for the `", "`-separated member list of a non-empty object,
up to and including the closing brace. -/
def parseMembsF (pv : List Char → Option (Json × List Char)) :
    Nat → List Char → Option (List (String × Json) × List Char)
  | 0, _ => none
  | fuel + 1, cs =>
    match cs with
    | '"' :: r =>
      match parseStr r with
      | none => none
      | some (k, r2) =>
        match r2 with
        | ':' :: ' ' :: r3 =>
          match pv r3 with
          | none => none
          | some (v, r4) =>
            match r4 with
            | c :: r5 =>
              if c = rbrace then some ([(String.mk k, v)], r5)
              else if c = ',' then
                match r5 with
                | ' ' :: r6 =>
                  match parseMembsF pv fuel r6 with
                  | none => none
                  | some (kvs, r7) => some ((String.mk k, v) :: kvs, r7)
                | _ => none
              else none
            | [] => none
        | _ => none
    | _ => none

/-- Decoder for one JSON value in the canonical `dumps` format.  The fuel
bounds nesting depth and container sizes. -/
def parseVal : Nat → List Char → Option (Json × List Char)
  | 0, _ => none
  | _ + 1, [] => none
  | fuel + 1, c :: r =>
    if c = 'n' then (expectLit ['u', 'l', 'l'] r).map (fun r2 => (Json.null, r2))
    else if c = 't' then (expectLit ['r', 'u', 'e'] r).map (fun r2 => (Json.bool true, r2))
    else if c = 'f' then (expectLit ['a', 'l', 's', 'e'] r).map (fun r2 => (Json.bool false, r2))
    else if c = '"' then
      match parseStr r with
      | none => none
      | some (s, r2) => some (Json.str (String.mk s), r2)
    else if c = '[' then
      match r with
      | [] => none
      | d :: r2 =>
        if d = ']' then some (Json.arr [], r2)
        else
          match parseElemsF (parseVal fuel) fuel (d :: r2) with
          | none => none
          | some (vs, r3) => some (Json.arr vs, r3)
    else if c = lbrace then
      match r with
      | [] => none
      | d :: r2 =>
        if d = rbrace then some (Json.obj [], r2)
        else
          match parseMembsF (parseVal fuel) fuel (d :: r2) with
          | none => none
          | some (kvs, r3) => some (Json.obj kvs, r3)
    else if c = '-' then
      match parseNat r with
      | none => none
      | some (n, r2) => some (Json.num (-(n : Int)), r2)
    else if c.isDigit then
      match parseNat (c :: r) with
      | none => none
      | some (n, r2) => some (Json.num (n : Int), r2)
    else none

/-- Parse a complete string in the canonical `dumps` encoding. -/
def loads (s : String) : Option Json :=
  match parseVal (s.data.length + 1) s.data with
  | some (v, []) => some v
  | _ => none

theorem hexCharVal_digitChar (d : Nat) (hd : d < 16) :
    hexCharVal (Nat.digitChar d) = some d := by
  interval_cases d <;> decide

theorem decodeHex4_hex4 (n : Nat) (h : n < 65536) :
    decodeHex4 (Nat.digitChar (n / 4096 % 16)) (Nat.digitChar (n / 256 % 16))
      (Nat.digitChar (n / 16 % 16)) (Nat.digitChar (n % 16)) = some n := by
  rw [decodeHex4, hexCharVal_digitChar _ (Nat.mod_lt _ (by omega)),
    hexCharVal_digitChar _ (Nat.mod_lt _ (by omega)),
    hexCharVal_digitChar _ (Nat.mod_lt _ (by omega)),
    hexCharVal_digitChar _ (Nat.mod_lt _ (by omega))]
  simp only [Option.some.injEq]
  omega

theorem char_toNat_cases (c : Char) :
    c.toNat < 55296 ∨ (57343 < c.toNat ∧ c.toNat < 1114112) := by
  rcases c.valid with h | ⟨h1, h2⟩
  · left; exact h
  · right; exact ⟨h1, h2⟩

theorem parseStrChars_raw (f : Nat) (c : Char) (tail : List Char) (h1 : ¬ c = '"')
    (h2 : ¬ c = '\\') (h3 : ¬ c.toNat < 32) :
    parseStrChars (f + 1) (c :: tail) =
      match parseStrChars f tail with
      | none => none
      | some (s, r) => some (c :: s, r) := by
  conv_lhs => rw [parseStrChars.eq_def]
  dsimp only []
  rw [if_neg h1, if_neg h2, if_neg h3]

theorem parseStrChars_u (f : Nat) (a b c2 d : Char) (tail : List Char) :
    parseStrChars (f + 1) ('\\' :: 'u' :: a :: b :: c2 :: d :: tail) =
      match decodeHex4 a b c2 d with
      | none => none
      | some n =>
        if 55296 ≤ n ∧ n < 56320 then
          match tail with
          | s1 :: s2 :: a2 :: b2 :: c3 :: d2 :: rest4 =>
            if s1 = '\\' ∧ s2 = 'u' then
              match decodeHex4 a2 b2 c3 d2 with
              | none => none
              | some m =>
                if 56320 ≤ m ∧ m < 57344 then
                  match parseStrChars f rest4 with
                  | none => none
                  | some (s, r) =>
                    some (Char.ofNat (65536 + (n - 55296) * 1024 + (m - 56320)) :: s, r)
                else none
            else none
          | _ => none
        else if 56320 ≤ n ∧ n < 57344 then none
        else
          match parseStrChars f tail with
          | none => none
          | some (s, r) => some (Char.ofNat n :: s, r) := rfl

theorem parseStr_escList (cs : List Char) (fuel : Nat) (rest : List Char)
    (hf : cs.length < fuel) :
    parseStrChars fuel (escList cs ++ '"' :: rest) = some (cs, rest) := by
  induction cs generalizing fuel with
  | nil =>
    obtain ⟨f, rfl⟩ : ∃ f, fuel = f + 1 := ⟨fuel - 1, by omega⟩
    rfl
  | cons c cs ih =>
    obtain ⟨f, rfl⟩ : ∃ f, fuel = f + 1 := ⟨fuel - 1, by omega⟩
    have hcs : cs.length < f := by simpa using hf
    have ihf := ih f hcs
    rw [escList, List.append_assoc]
    by_cases h1 : c = '"'
    · subst h1
      exact (show (match parseStrChars f (escList cs ++ '"' :: rest) with
        | none => none
        | some (s, r) => some ('"' :: s, r)) = some ('"' :: cs, rest) by rw [ihf])
    · by_cases h2 : c = '\\'
      · subst h2
        exact (show (match parseStrChars f (escList cs ++ '"' :: rest) with
          | none => none
          | some (s, r) => some ('\\' :: s, r)) = some ('\\' :: cs, rest) by rw [ihf])
      · by_cases h3 : c = Char.ofNat 8
        · subst h3
          exact (show (match parseStrChars f (escList cs ++ '"' :: rest) with
            | none => none
            | some (s, r) => some (Char.ofNat 8 :: s, r)) = some (Char.ofNat 8 :: cs, rest) by
            rw [ihf])
        · by_cases h4 : c = Char.ofNat 9
          · subst h4
            exact (show (match parseStrChars f (escList cs ++ '"' :: rest) with
              | none => none
              | some (s, r) => some (Char.ofNat 9 :: s, r)) = some (Char.ofNat 9 :: cs, rest) by
              rw [ihf])
          · by_cases h5 : c = Char.ofNat 10
            · subst h5
              exact (show (match parseStrChars f (escList cs ++ '"' :: rest) with
                | none => none
                | some (s, r) => some (Char.ofNat 10 :: s, r)) = some (Char.ofNat 10 :: cs, rest) by
                rw [ihf])
            · by_cases h6 : c = Char.ofNat 12
              · subst h6
                exact (show (match parseStrChars f (escList cs ++ '"' :: rest) with
                  | none => none
                  | some (s, r) => some (Char.ofNat 12 :: s, r)) =
                    some (Char.ofNat 12 :: cs, rest) by rw [ihf])
              · by_cases h7 : c = Char.ofNat 13
                · subst h7
                  exact (show (match parseStrChars f (escList cs ++ '"' :: rest) with
                    | none => none
                    | some (s, r) => some (Char.ofNat 13 :: s, r)) =
                      some (Char.ofNat 13 :: cs, rest) by rw [ihf])
                · by_cases h8 : 32 ≤ c.toNat ∧ c.toNat ≤ 126
                  · rw [escapeChar, if_neg h1, if_neg h2, if_neg h3, if_neg h4, if_neg h5,
                      if_neg h6, if_neg h7, if_pos h8, List.singleton_append,
                      parseStrChars_raw f c _ h1 h2 (by omega), ihf]
                  · have hv := char_toNat_cases c
                    by_cases h9 : c.toNat < 65536
                    · rw [escapeChar, if_neg h1, if_neg h2, if_neg h3, if_neg h4, if_neg h5,
                        if_neg h6, if_neg h7, if_neg h8, if_pos h9]
                      simp only [hex4, List.cons_append, List.nil_append]
                      rw [parseStrChars_u, decodeHex4_hex4 _ h9]
                      dsimp only []
                      rw [if_neg (show ¬ (55296 ≤ c.toNat ∧ c.toNat < 56320) by omega),
                        if_neg (show ¬ (56320 ≤ c.toNat ∧ c.toNat < 57344) by omega), ihf,
                        Char.ofNat_toNat]
                    · rw [escapeChar, if_neg h1, if_neg h2, if_neg h3, if_neg h4, if_neg h5,
                        if_neg h6, if_neg h7, if_neg h8, if_neg h9]
                      have hlt : c.toNat < 1114112 := by omega
                      simp only [hex4, List.cons_append, List.nil_append, List.append_assoc]
                      rw [parseStrChars_u, decodeHex4_hex4 _ (by omega)]
                      dsimp only []
                      rw [if_pos (show 55296 ≤ 55296 + (c.toNat - 65536) / 1024 ∧
                        55296 + (c.toNat - 65536) / 1024 < 56320 by omega)]
                      rw [if_pos (show ('\\' : Char) = '\\' ∧ ('u' : Char) = 'u' from ⟨rfl, rfl⟩),
                        decodeHex4_hex4 _ (by omega)]
                      dsimp only []
                      rw [if_pos (show 56320 ≤ 56320 + (c.toNat - 65536) % 1024 ∧
                        56320 + (c.toNat - 65536) % 1024 < 57344 by omega), ihf]
                      dsimp only []
                      rw [show 65536 + (55296 + (c.toNat - 65536) / 1024 - 55296) * 1024 +
                          (56320 + (c.toNat - 65536) % 1024 - 56320) = c.toNat by omega,
                        Char.ofNat_toNat]

theorem digitChar_isDigit (d : Nat) (h : d < 10) : (Nat.digitChar d).isDigit = true := by
  interval_cases d <;> decide

theorem digitChar_toNat (d : Nat) (h : d < 10) : (Nat.digitChar d).toNat = 48 + d := by
  interval_cases d <;> decide

theorem natChars_digits (n : Nat) : ∀ c ∈ natChars n, c.isDigit = true := by
  induction n using Nat.strong_induction_on with
  | _ n ih =>
    rw [natChars]
    split
    · intro c hc
      rw [List.mem_singleton] at hc
      subst hc
      exact digitChar_isDigit n (by omega)
    · intro c hc
      rcases List.mem_append.1 hc with h | h
      · exact ih (n / 10) (by omega) c h
      · rw [List.mem_singleton] at h
        subst h
        exact digitChar_isDigit _ (Nat.mod_lt _ (by omega))

theorem natChars_ne_nil (n : Nat) : natChars n ≠ [] := by
  rw [natChars]
  split
  · simp
  · simp

theorem digitsVal_append (xs : List Char) (d : Char) :
    digitsVal (xs ++ [d]) = 10 * digitsVal xs + (d.toNat - 48) := by
  simp [digitsVal, List.foldl_append]

theorem digitsVal_natChars (n : Nat) : digitsVal (natChars n) = n := by
  induction n using Nat.strong_induction_on with
  | _ n ih =>
    rw [natChars]
    split
    · rename_i h
      simp [digitsVal, digitChar_toNat n h]
    · rename_i h
      rw [digitsVal_append, ih (n / 10) (by omega),
        digitChar_toNat _ (Nat.mod_lt _ (by omega))]
      omega

theorem takeWhile_append_of_not (p : Char → Bool) (ds rest : List Char)
    (hds : ∀ c ∈ ds, p c = true) (hrest : rest.head?.all (fun c => !p c) = true) :
    (ds ++ rest).takeWhile p = ds := by
  induction ds with
  | nil =>
    cases rest with
    | nil => rfl
    | cons r rs =>
      simp only [Option.all_some, List.head?_cons, Bool.not_eq_true'] at hrest
      simp [List.takeWhile_cons, hrest]
  | cons d ds ih =>
    simp only [List.cons_append, List.takeWhile_cons, hds d (by simp)]
    simp only [if_true]
    rw [ih (fun c hc => hds c (by simp [hc]))]

/-- The continuation after a serialized value never starts with a digit:
this is what makes number decoding unambiguous. -/
def okAfter : List Char → Bool
  | [] => true
  | c :: _ => !c.isDigit

theorem parseNat_natChars (n : Nat) (rest : List Char)
    (hrest : okAfter rest = true) :
    parseNat (natChars n ++ rest) = some (n, rest) := by
  have hhead : rest.head?.all (fun c => !c.isDigit) = true := by
    cases rest with
    | nil => rfl
    | cons r rs => simpa [okAfter] using hrest
  rw [parseNat]
  rw [takeWhile_append_of_not _ _ _ (natChars_digits n) hhead]
  rw [if_neg (by simpa using natChars_ne_nil n)]
  rw [digitsVal_natChars, List.drop_left]

theorem escapeChar_length_pos (c : Char) : 1 ≤ (escapeChar c).length := by
  rw [escapeChar]
  repeat' split
  all_goals simp

theorem escList_length_ge (cs : List Char) : cs.length ≤ (escList cs).length := by
  induction cs with
  | nil => simp [escList]
  | cons c cs ih =>
    rw [escList, List.length_append, List.length_cons]
    have := escapeChar_length_pos c
    omega

theorem string_mk_data (s : String) : String.mk s.data = s := rfl

theorem dumpsL_ne_nil (v : Json) : dumpsL v ≠ [] := by
  cases v with
  | null => simp [dumpsL]
  | bool b => cases b <;> simp [dumpsL]
  | num i =>
    rw [dumpsL, intChars]
    split
    · simp
    · exact natChars_ne_nil _
  | str s => simp [dumpsL]
  | arr xs => cases xs <;> simp [dumpsL]
  | obj kvs => cases kvs <;> simp [dumpsL]

theorem dumpsL_length_pos (v : Json) : 1 ≤ (dumpsL v).length := by
  have := dumpsL_ne_nil v
  cases h : dumpsL v with
  | nil => exact absurd h this
  | cons c cs => simp

theorem mem_dumpsTail_le (xs : List Json) (v : Json) (h : v ∈ xs) :
    (dumpsL v).length ≤ (dumpsTail xs).length := by
  induction xs with
  | nil => cases h
  | cons y ys ih =>
    rw [dumpsTail]
    rcases List.mem_cons.1 h with rfl | h
    · simp only [List.length_cons, List.length_append]
      omega
    · have := ih h
      simp only [List.length_cons, List.length_append]
      omega

theorem dumpsTail_length_ge (xs : List Json) : xs.length ≤ (dumpsTail xs).length := by
  induction xs with
  | nil => simp [dumpsTail]
  | cons y ys ih =>
    rw [dumpsTail]
    simp only [List.length_cons, List.length_append]
    omega

theorem mem_dumpsMTail_le (kvs : List (String × Json)) (kv : String × Json) (h : kv ∈ kvs) :
    (dumpsL kv.2).length ≤ (dumpsMTail kvs).length := by
  induction kvs with
  | nil => cases h
  | cons p ps ih =>
    rw [dumpsMTail]
    rcases List.mem_cons.1 h with rfl | h
    · obtain ⟨k, v⟩ := kv
      rw [dumpsKV]
      simp only [List.length_cons, List.length_append]
      omega
    · have := ih h
      simp only [List.length_cons, List.length_append]
      omega

theorem dumpsMTail_length_ge (kvs : List (String × Json)) :
    kvs.length ≤ (dumpsMTail kvs).length := by
  induction kvs with
  | nil => simp [dumpsMTail]
  | cons p ps ih =>
    rw [dumpsMTail]
    simp only [List.length_cons, List.length_append]
    omega

theorem dumpsKV_length (k : String) (v : Json) :
    (dumpsL v).length + 4 ≤ (dumpsKV (k, v)).length := by
  rw [dumpsKV]
  simp only [List.length_cons, List.length_append]
  omega

theorem dumpsL_head_cases (v : Json) (c0 : Char) (cr : List Char)
    (h : dumpsL v = c0 :: cr) :
    c0 = 'n' ∨ c0 = 't' ∨ c0 = 'f' ∨ c0 = '"' ∨ c0 = '[' ∨ c0 = lbrace ∨ c0 = '-' ∨
      c0.isDigit = true := by
  cases v with
  | null => rw [dumpsL] at h; simp at h; tauto
  | bool b => cases b <;> (rw [dumpsL] at h; simp at h; tauto)
  | num i =>
    rw [dumpsL, intChars] at h
    split at h
    · simp at h; tauto
    · right; right; right; right; right; right; right
      have hd := natChars_digits i.toNat c0 (by rw [h]; simp)
      exact hd
  | str s => rw [dumpsL] at h; simp at h; tauto
  | arr xs =>
    cases xs <;> (rw [dumpsL] at h; simp at h; tauto)
  | obj kvs =>
    cases kvs <;> (rw [dumpsL] at h; simp at h; tauto)

theorem parseVal_null (f : Nat) (r : List Char) :
    parseVal (f + 1) ('n' :: 'u' :: 'l' :: 'l' :: r) = some (Json.null, r) := rfl

theorem parseVal_true (f : Nat) (r : List Char) :
    parseVal (f + 1) ('t' :: 'r' :: 'u' :: 'e' :: r) = some (Json.bool true, r) := rfl

theorem parseVal_false (f : Nat) (r : List Char) :
    parseVal (f + 1) ('f' :: 'a' :: 'l' :: 's' :: 'e' :: r) = some (Json.bool false, r) := rfl

theorem parseVal_quote (f : Nat) (r : List Char) :
    parseVal (f + 1) ('"' :: r) =
      match parseStr r with
      | none => none
      | some (s, r2) => some (Json.str (String.mk s), r2) := rfl

theorem parseVal_lbracket (f : Nat) (d : Char) (r2 : List Char) :
    parseVal (f + 1) ('[' :: d :: r2) =
      if d = ']' then some (Json.arr [], r2)
      else
        match parseElemsF (parseVal f) f (d :: r2) with
        | none => none
        | some (vs, r3) => some (Json.arr vs, r3) := rfl

theorem parseVal_lbrace (f : Nat) (d : Char) (r2 : List Char) :
    parseVal (f + 1) (lbrace :: d :: r2) =
      if d = rbrace then some (Json.obj [], r2)
      else
        match parseMembsF (parseVal f) f (d :: r2) with
        | none => none
        | some (kvs, r3) => some (Json.obj kvs, r3) := rfl

theorem parseVal_dash (f : Nat) (r : List Char) :
    parseVal (f + 1) ('-' :: r) =
      match parseNat r with
      | none => none
      | some (n, r2) => some (Json.num (-(n : Int)), r2) := rfl

theorem parseVal_digit (f : Nat) (c : Char) (r : List Char) (hc : c.isDigit = true) :
    parseVal (f + 1) (c :: r) =
      match parseNat (c :: r) with
      | none => none
      | some (n, r2) => some (Json.num (n : Int), r2) := by
  have hb : 48 ≤ c.toNat ∧ c.toNat ≤ 57 := by simp [Char.isDigit] at hc; exact hc
  rcases (by omega : c.toNat = 48 ∨ c.toNat = 49 ∨ c.toNat = 50 ∨ c.toNat = 51 ∨
      c.toNat = 52 ∨ c.toNat = 53 ∨ c.toNat = 54 ∨ c.toNat = 55 ∨ c.toNat = 56 ∨
      c.toNat = 57) with h | h | h | h | h | h | h | h | h | h <;>
    (rw [show c = Char.ofNat c.toNat from (Char.ofNat_toNat c).symm, h]; rfl)

theorem parseElemsF_succ (pv : List Char → Option (Json × List Char)) (g : Nat)
    (cs : List Char) :
    parseElemsF pv (g + 1) cs =
      match pv cs with
      | none => none
      | some (v, r) =>
        match r with
        | ']' :: r2 => some ([v], r2)
        | ',' :: ' ' :: r2 =>
          match parseElemsF pv g r2 with
          | none => none
          | some (vs, r3) => some (v :: vs, r3)
        | _ => none := rfl

theorem parseMembsF_succ (pv : List Char → Option (Json × List Char)) (g : Nat)
    (cs : List Char) :
    parseMembsF pv (g + 1) cs =
      match cs with
      | '"' :: r =>
        match parseStr r with
        | none => none
        | some (k, r2) =>
          match r2 with
          | ':' :: ' ' :: r3 =>
            match pv r3 with
            | none => none
            | some (v, r4) =>
              match r4 with
              | c :: r5 =>
                if c = rbrace then some ([(String.mk k, v)], r5)
                else if c = ',' then
                  match r5 with
                  | ' ' :: r6 =>
                    match parseMembsF pv g r6 with
                    | none => none
                    | some (kvs, r7) => some ((String.mk k, v) :: kvs, r7)
                  | _ => none
                else none
              | [] => none
          | _ => none
      | _ => none := rfl


/-- Serialized body of a non-empty array (without the brackets). -/
def dumpsJoin : List Json → List Char
  | [] => []
  | x :: xs => dumpsL x ++ dumpsTail xs

/-- Serialized body of a non-empty object (without the braces). -/
def dumpsMJoin : List (String × Json) → List Char
  | [] => []
  | kv :: kvs => dumpsKV kv ++ dumpsMTail kvs

theorem okAfter_rsqb (r : List Char) : okAfter (']' :: r) = true := rfl

theorem parseElemsF_dumps (pv : List Char → Option (Json × List Char))
    (xs : List Json) (g : Nat) (rest : List Char) (hne : xs ≠ []) (hg : xs.length ≤ g)
    (hpv : ∀ v ∈ xs, ∀ r2, okAfter r2 = true → pv (dumpsL v ++ r2) = some (v, r2)) :
    parseElemsF pv g (dumpsJoin xs ++ ']' :: rest) = some (xs, rest) := by
  induction xs generalizing g with
  | nil => exact absurd rfl hne
  | cons x xs ih =>
    obtain ⟨g2, rfl⟩ : ∃ g2, g = g2 + 1 := ⟨g - 1, by simp at hg; omega⟩
    rw [parseElemsF_succ]
    cases xs with
    | nil =>
      rw [dumpsJoin, dumpsTail, List.append_nil]
      rw [hpv x (by simp) (']' :: rest) (by simp [okAfter])]
      rfl
    | cons y ys =>
      rw [dumpsJoin, dumpsTail]
      have hshape : (dumpsL x ++ (',' :: ' ' :: (dumpsL y ++ dumpsTail ys))) ++ ']' :: rest =
          dumpsL x ++ (',' :: ' ' :: (dumpsJoin (y :: ys) ++ ']' :: rest)) := by
        rw [dumpsJoin]; simp
      rw [hshape]
      rw [hpv x (by simp) _ (by simp [okAfter])]
      have ihr := ih g2 (by simp) (by simp at hg ⊢; omega)
        (fun v hv r2 h2 => hpv v (by simp [hv]) r2 h2)
      conv_lhs => whnf
      rw [ihr]

theorem parseMembsF_dumps (pv : List Char → Option (Json × List Char))
    (kvs : List (String × Json)) (g : Nat) (rest : List Char) (hne : kvs ≠ [])
    (hg : kvs.length ≤ g)
    (hpv : ∀ kv ∈ kvs, ∀ r2, okAfter r2 = true → pv (dumpsL kv.2 ++ r2) = some (kv.2, r2)) :
    parseMembsF pv g (dumpsMJoin kvs ++ rbrace :: rest) = some (kvs, rest) := by
  induction kvs generalizing g with
  | nil => exact absurd rfl hne
  | cons kv kvs ih =>
    obtain ⟨k, v⟩ := kv
    obtain ⟨g2, rfl⟩ : ∃ g2, g = g2 + 1 := ⟨g - 1, by simp at hg; omega⟩
    rw [parseMembsF_succ, dumpsMJoin, dumpsKV]
    have hshape : (('"' :: (escList k.data ++ ['"', ':', ' ']) ++ dumpsL v) ++ dumpsMTail kvs) ++
        rbrace :: rest =
        '"' :: (escList k.data ++
          '"' :: ':' :: ' ' :: (dumpsL v ++ (dumpsMTail kvs ++ rbrace :: rest))) := by
      simp
    rw [hshape]
    conv_lhs => whnf
    have hps : parseStr (escList k.data ++
        '"' :: (':' :: ' ' :: (dumpsL v ++ (dumpsMTail kvs ++ rbrace :: rest)))) =
        some (k.data, ':' :: ' ' :: (dumpsL v ++ (dumpsMTail kvs ++ rbrace :: rest))) := by
      rw [parseStr]
      apply parseStr_escList
      have := escList_length_ge k.data
      simp only [List.length_append, List.length_cons]
      omega
    rw [hps]
    conv_lhs => whnf
    have hok : okAfter (dumpsMTail kvs ++ rbrace :: rest) = true := by
      cases kvs with
      | nil => rw [dumpsMTail]; simp [okAfter]; decide
      | cons kv2 kvs2 => rw [dumpsMTail]; rfl
    rw [hpv (k, v) (by simp) _ hok]
    conv_lhs => whnf
    cases kvs with
    | nil =>
      rw [dumpsMTail, List.nil_append]
      conv_lhs => whnf
    | cons kv2 kvs2 =>
      rw [dumpsMTail]
      have hshape2 : (',' :: ' ' :: (dumpsKV kv2 ++ dumpsMTail kvs2)) ++ rbrace :: rest =
          ',' :: ' ' :: (dumpsMJoin (kv2 :: kvs2) ++ rbrace :: rest) := by
        rw [dumpsMJoin]; simp
      rw [hshape2]
      conv_lhs => whnf
      have ihr := ih g2 (by simp) (by simp at hg ⊢; omega)
        (fun p hp r2 h2 => hpv p (by simp [hp]) r2 h2)
      rw [ihr]

theorem parseVal_dumps (f : Nat) :
    ∀ (v : Json) (rest : List Char), (dumpsL v).length < f → okAfter rest = true →
      parseVal f (dumpsL v ++ rest) = some (v, rest) := by
  induction f using Nat.strong_induction_on with
  | _ f ih =>
    intro v rest hlen hrest
    obtain ⟨f2, rfl⟩ : ∃ f2, f = f2 + 1 := ⟨f - 1, by omega⟩
    cases v with
    | null =>
      rw [dumpsL]
      simp only [List.cons_append, List.nil_append]
      exact parseVal_null f2 rest
    | bool b =>
      cases b with
      | true =>
        rw [dumpsL]
        simp only [List.cons_append, List.nil_append]
        exact parseVal_true f2 rest
      | false =>
        rw [dumpsL]
        simp only [List.cons_append, List.nil_append]
        exact parseVal_false f2 rest
    | num i =>
      rw [dumpsL, intChars]
      by_cases hi : i < 0
      · rw [if_pos hi, List.cons_append, parseVal_dash, parseNat_natChars _ _ hrest]
        conv_lhs => whnf
        rw [show -(i.natAbs : Int) = i by omega]
      · rw [if_neg hi]
        obtain ⟨d, ds, hnat⟩ : ∃ d ds, natChars i.toNat = d :: ds := by
          cases h : natChars i.toNat with
          | nil => exact absurd h (natChars_ne_nil _)
          | cons d ds => exact ⟨d, ds, rfl⟩
        have hd : d.isDigit = true := natChars_digits i.toNat d (by rw [hnat]; simp)
        rw [hnat, List.cons_append, parseVal_digit f2 d _ hd, ← List.cons_append, ← hnat,
          parseNat_natChars _ _ hrest]
        conv_lhs => whnf
        rw [show ((i.toNat : Nat) : Int) = i from Int.toNat_of_nonneg (by omega)]
    | str s =>
      rw [dumpsL]
      rw [show ('"' :: (escList s.data ++ ['"'])) ++ rest =
        '"' :: (escList s.data ++ '"' :: rest) by simp]
      rw [parseVal_quote]
      have hps : parseStr (escList s.data ++ '"' :: rest) = some (s.data, rest) := by
        rw [parseStr]
        apply parseStr_escList
        have := escList_length_ge s.data
        simp only [List.length_append, List.length_cons]
        omega
      rw [hps]
    | arr xs =>
      cases xs with
      | nil =>
        rw [dumpsL]
        simp only [List.cons_append, List.nil_append]
        rw [parseVal_lbracket, if_pos rfl]
      | cons x xs2 =>
        rw [dumpsL]
        rw [show ('[' :: (dumpsL x ++ dumpsTail xs2 ++ [']'])) ++ rest =
          '[' :: (dumpsJoin (x :: xs2) ++ ']' :: rest) by rw [dumpsJoin]; simp]
        obtain ⟨c0, cr, hx⟩ : ∃ c0 cr, dumpsL x = c0 :: cr := by
          cases h : dumpsL x with
          | nil => exact absurd h (dumpsL_ne_nil x)
          | cons a b => exact ⟨a, b, rfl⟩
        have hc0 : ¬ c0 = ']' := by
          rcases dumpsL_head_cases x c0 cr hx with h | h | h | h | h | h | h | h
          all_goals first
          | (subst h; decide)
          | (intro he; subst he; exact absurd h (by decide))
        have hjoin : dumpsJoin (x :: xs2) ++ ']' :: rest =
            c0 :: (cr ++ dumpsTail xs2 ++ ']' :: rest) := by
          rw [dumpsJoin, hx]; simp
        rw [hjoin, parseVal_lbracket, if_neg hc0, ← hjoin]
        have hlen2 : (dumpsL (Json.arr (x :: xs2))).length < f2 + 1 := hlen
        rw [dumpsL] at hlen2
        simp only [List.length_cons, List.length_append] at hlen2
        have hx1 := dumpsL_length_pos x
        have ht1 := dumpsTail_length_ge xs2
        have he := parseElemsF_dumps (parseVal f2) (x :: xs2) f2 rest (by simp)
          (by simp; omega)
          (fun v hv r2 h2 => by
            apply ih f2 (by omega) v r2 _ h2
            rcases List.mem_cons.1 hv with rfl | hv2
            · omega
            · have := mem_dumpsTail_le xs2 v hv2
              omega)
        rw [he]
    | obj kvs =>
      cases kvs with
      | nil =>
        rw [dumpsL]
        simp only [List.cons_append, List.nil_append]
        rw [parseVal_lbrace, if_pos rfl]
      | cons kv kvs2 =>
        rw [dumpsL]
        rw [show (lbrace :: (dumpsKV kv ++ dumpsMTail kvs2 ++ [rbrace])) ++ rest =
          lbrace :: (dumpsMJoin (kv :: kvs2) ++ rbrace :: rest) by rw [dumpsMJoin]; simp]
        obtain ⟨k, v⟩ := kv
        have hkv : dumpsKV (k, v) = '"' :: ((escList k.data ++ ['"', ':', ' ']) ++ dumpsL v) := by
          rw [dumpsKV]; simp
        have hjoin : dumpsMJoin ((k, v) :: kvs2) ++ rbrace :: rest =
            '"' :: (((escList k.data ++ ['"', ':', ' ']) ++ dumpsL v) ++ dumpsMTail kvs2 ++
              rbrace :: rest) := by
          rw [dumpsMJoin, hkv]; simp
        rw [hjoin, parseVal_lbrace, if_neg (by decide : ¬ ('"' : Char) = rbrace), ← hjoin]
        have hlen2 : (dumpsL (Json.obj ((k, v) :: kvs2))).length < f2 + 1 := hlen
        rw [dumpsL] at hlen2
        simp only [List.length_cons, List.length_append] at hlen2
        have hkv1 := dumpsKV_length k v
        have ht1 := dumpsMTail_length_ge kvs2
        have hv1 := dumpsL_length_pos v
        have he := parseMembsF_dumps (parseVal f2) ((k, v) :: kvs2) f2 rest (by simp)
          (by simp; omega)
          (fun p hp r2 h2 => by
            apply ih f2 (by omega) p.2 r2 _ h2
            rcases List.mem_cons.1 hp with rfl | hp2
            · show (dumpsL v).length < f2
              omega
            · have := mem_dumpsMTail_le kvs2 p hp2
              omega)
        rw [he]

theorem loads_dumps (v : Json) : loads (dumps v) = some v := by
  rw [loads, dumps]
  rw [show (String.mk (dumpsL v)).data = dumpsL v from rfl]
  have hp := parseVal_dumps ((dumpsL v).length + 1) v [] (by omega) rfl
  rw [List.append_nil] at hp
  rw [hp]


/-- Column header of the evaluation store (`EVAL_CSV_HEADER`). -/
def EVAL_CSV_HEADER : List String :=
  ["researchId", "timestamp", "age", "sex", "renalInputMethod",
   "serumCreatinine", "eGFR", "renalStatus", "fallsHistory",
   "knownMedicationsJson", "otherMedicationsJson", "totalACB",
   "beersAlertsCount", "stoppAlertsCount"]

/-- Column header of the suggestion store (`SUGGESTIONS_HEADER`). -/
def SUGGESTIONS_HEADER : List String :=
  ["timestamp", "medicationName", "details", "email"]

/-- One CSV record as handed to `csv.writer`/`csv.DictWriter`: a list of
cell values in column order.  `Json.null` is the Python `None` cell,
which the csv module renders as the empty field. -/
abbrev Row : Type := List Json

/-- The header record written by `csv.writer.writerow(header)`. -/
def headerRowOf (header : List String) : Row := header.map Json.str

/-- Source `initialize_csv(file_path, header)`: creates the directory and the
CSV file with a header if they do not exist.  The file at the path is
modelled by `file` (`none` = missing); `osOk` is the oracle for the
`OSError` branch (directory or file creation failing), in which case the
exception is caught, a message is printed and nothing else happens. -/
def initialize_csv (header : List String) (osOk : Bool) (file : Option (List Row)) :
    Option (List Row) :=
  if osOk then
    match file with
    | none => some [headerRowOf header]
    | some rows => some rows
  else file

/-- An HTTP response produced by `flask.jsonify(...), code`. -/
structure Response where
  status : Nat
  message : Option String
  error : Option String
deriving DecidableEq

/-- Response `flask.jsonify(\x7b"error": e\x7d), code`. -/
def jsonError (e : String) (code : Nat) : Response :=
  { status := code, message := none, error := some e }

/-- Response `flask.jsonify(\x7b"message": m\x7d), 200`. -/
def jsonMessage (m : String) : Response :=
  { status := 200, message := some m, error := none }

/-- Python `data.get(k)` on a dict: `none` means the key is absent. -/
def pyGet (kvs : List (String × Json)) (k : String) : Option Json := alookup kvs k

/-- The `row_data` dict built inside `save_data` (source lines 69–84), in
insertion order.  `data.get(k, default)` substitutes the default only
when the key is absent; `data.get(k)` yields Python `None` (= `Json.null`).
The two `datetime.datetime.now().isoformat()` calls are modelled by the
request-time parameter `now`.  Python raises `AttributeError` — caught by
the generic handler — when `data` is not a dict, or when the value of
`results` is present but not a dict (`data.get('results', {}).get(...)`);
both are the `.error` outcome. -/
def evalRowData (data : Json) (now : String) : Except Unit (List (String × Json)) :=
  match data with
  | .obj kvs =>
    match (pyGet kvs "results").getD (.obj []) with
    | .obj rkvs =>
      .ok [("researchId", (pyGet kvs "researchId").getD (.str ("MISSING_ID_" ++ now))),
           ("timestamp", (pyGet kvs "timestamp").getD (.str now)),
           ("age", (pyGet kvs "age").getD .null),
           ("sex", (pyGet kvs "sex").getD .null),
           ("renalInputMethod", (pyGet kvs "renalInputMethod").getD .null),
           ("serumCreatinine", (pyGet kvs "serumCreatinine").getD .null),
           ("eGFR", (pyGet kvs "eGFR").getD .null),
           ("renalStatus", (pyGet kvs "renalStatus").getD .null),
           ("fallsHistory", (pyGet kvs "fallsHistory").getD .null),
           ("knownMedicationsJson", .str (dumps ((pyGet kvs "knownMedications").getD (.arr [])))),
           ("otherMedicationsJson", .str (dumps ((pyGet kvs "otherMedications").getD (.arr [])))),
           ("totalACB", (pyGet rkvs "totalACB").getD .null),
           ("beersAlertsCount", (pyGet rkvs "beersAlerts").getD .null),
           ("stoppAlertsCount", (pyGet rkvs "stoppAlerts").getD .null)]
    | _ => .error ()
  | _ => .error ()

/-- The comprehension `final_row = \x7bkey: row_data.get(key) for key in header\x7d` followed by
`csv.DictWriter(..., fieldnames=header).writerow(final_row)`: one cell
per header column, in header order; a missing key yields `None`. -/
def finalRowOf (rowData : List (String × Json)) (header : List String) : Row :=
  header.map (fun k => (alookup rowData k).getD .null)

/-- The `/save_data` endpoint (`save_data()` in the source).  `req` is
`none` when `flask.request.is_json` is false; otherwise it carries the
parsed JSON body.  `file` is the evaluation store file; the returned pair
is the HTTP response and the store file afterwards.  Control flow follows
the source: `initialize_csv` runs first, then the JSON check, then row
assembly (processing errors give 400), then the existence re-check
(500 if the file is missing) and the append. -/
def save_data (req : Option Json) (now : String) (initOk : Bool)
    (file : Option (List Row)) : Response × Option (List Row) :=
  let file1 := initialize_csv EVAL_CSV_HEADER initOk file
  match req with
  | none => (jsonError "Request must be JSON" 400, file1)
  | some data =>
    match evalRowData data now with
    | .error _ => (jsonError "Invalid data format" 400, file1)
    | .ok rowData =>
      let finalRow := finalRowOf rowData EVAL_CSV_HEADER
      match file1 with
      | none => (jsonError "Could not access data storage" 500, file1)
      | some rows =>
        (jsonMessage "Evaluation data saved successfully", some (rows ++ [finalRow]))

/-- Failure modes of the suggestion row assembly: the `ValueError` raised
for missing required fields, and the generic processing failure
(`AttributeError` on a non-dict body). -/
inductive SuggErr where
  | validation : SuggErr
  | badFormat : SuggErr

/-- The suggestion row assembly inside `save_suggestion` (source lines
127–142): `medicationName` and `details` are required and checked with
Python truthiness (`if not med_name or not details`); `timestamp`
defaults to the current time, `email` is optional. -/
def suggRowData (data : Json) (now : String) : Except SuggErr (List (String × Json)) :=
  match data with
  | .obj kvs =>
    let medName := (pyGet kvs "medicationName").getD .null
    let details := (pyGet kvs "details").getD .null
    if !medName.truthy || !details.truthy then .error .validation
    else
      .ok [("timestamp", (pyGet kvs "timestamp").getD (.str now)),
           ("medicationName", medName),
           ("details", details),
           ("email", (pyGet kvs "email").getD .null)]
  | _ => .error .badFormat

/-- The `/save_suggestion` endpoint (`save_suggestion()` in the source),
modelled like `save_data`. -/
def save_suggestion (req : Option Json) (now : String) (initOk : Bool)
    (file : Option (List Row)) : Response × Option (List Row) :=
  let file1 := initialize_csv SUGGESTIONS_HEADER initOk file
  match req with
  | none => (jsonError "Request must be JSON" 400, file1)
  | some data =>
    match suggRowData data now with
    | .error .validation =>
      (jsonError "Missing required suggestion fields (medicationName or details)" 400, file1)
    | .error .badFormat => (jsonError "Invalid suggestion data format" 400, file1)
    | .ok rowData =>
      let finalRow := finalRowOf rowData SUGGESTIONS_HEADER
      match file1 with
      | none => (jsonError "Could not access suggestion storage" 500, file1)
      | some rows =>
        (jsonMessage "Suggestion saved successfully", some (rows ++ [finalRow]))

/-- One submission step of the evaluation endpoint: request body, request
time, and the filesystem oracle for that request. -/
structure EvalStep where
  req : Option Json
  now : String
  initOk : Bool

/-- A sequence of `/save_data` requests processed in order, returning the
responses and the final store file. -/
def runEval : List EvalStep → Option (List Row) → List Response × Option (List Row)
  | [], file => ([], file)
  | step :: steps, file =>
    let out := save_data step.req step.now step.initOk file
    let rec2 := runEval steps out.2
    (out.1 :: rec2.1, rec2.2)

/-- The row an accepted evaluation submission appends (meaningful when
the step was accepted). -/
def evalRowOf (step : EvalStep) : Row :=
  match step.req with
  | some data =>
    match evalRowData data step.now with
    | .ok rowData => finalRowOf rowData EVAL_CSV_HEADER
    | .error _ => []
  | none => []

/-- One submission step of the suggestion endpoint: request body, request
time, and the filesystem oracle for that request. -/
structure SuggStep where
  req : Option Json
  now : String
  initOk : Bool

/-- A sequence of `/save_suggestion` requests processed in order,
returning the responses and the final store file. -/
def runSugg : List SuggStep → Option (List Row) → List Response × Option (List Row)
  | [], file => ([], file)
  | step :: steps, file =>
    let out := save_suggestion step.req step.now step.initOk file
    let rec2 := runSugg steps out.2
    (out.1 :: rec2.1, rec2.2)

/-- The row an accepted suggestion submission appends (meaningful when
the step was accepted). -/
def suggRowOf (step : SuggStep) : Row :=
  match step.req with
  | some data =>
    match suggRowData data step.now with
    | .ok rowData => finalRowOf rowData SUGGESTIONS_HEADER
    | .error _ => []
  | none => []

/-- Shape test for an ISO-8601 timestamp as produced by
`datetime.isoformat()`: `YYYY-MM-DDTHH:MM:SS` optionally followed by
`.ffffff`. -/
def isIsoChars : List Char → Bool
  | y1 :: y2 :: y3 :: y4 :: '-' :: a1 :: a2 :: '-' :: b1 :: b2 :: 'T' ::
      h1 :: h2 :: ':' :: m1 :: m2 :: ':' :: s1 :: s2 :: rest =>
    y1.isDigit && y2.isDigit && y3.isDigit && y4.isDigit && a1.isDigit && a2.isDigit &&
    b1.isDigit && b2.isDigit && h1.isDigit && h2.isDigit && m1.isDigit && m2.isDigit &&
    s1.isDigit && s2.isDigit &&
    (match rest with
     | [] => true
     | '.' :: us => us.length = 6 && us.all (fun c => c.isDigit)
     | _ => false)
  | _ => false

/-- Shape test for an ISO-8601 timestamp string. -/
def isIsoTimestamp (s : String) : Bool := isIsoChars s.data

/-- Relation between a store file before and after a request that appends
no record: either the file is untouched, or it did not exist and the
initializer created it with exactly the header row. -/
def rowsUnchanged (pre post : Option (List Row)) (header : List String) : Prop :=
  post = pre ∨ (pre = none ∧ post = some [headerRowOf header])

/-- A request body that is not a structured key-value object: absent (or
non-JSON) body, or a JSON value other than an object. -/
def nonObject : Option Json → Prop
  | none => True
  | some (.obj _) => False
  | some _ => True

/-- The payload field `k` is absent, or is present but empty (`null` or
the empty string). -/
def absentOrEmpty (kvs : List (String × Json)) (k : String) : Prop :=
  alookup kvs k = none ∨ alookup kvs k = some (.str "") ∨ alookup kvs k = some .null

/-- The `results` payload field is absent or is itself an object — the
condition under which evaluation row assembly cannot fail. -/
def resultsOk (kvs : List (String × Json)) : Prop :=
  match alookup kvs "results" with
  | none => True
  | some (.obj _) => True
  | some _ => False


theorem initialize_csv_some (header : List String) (b : Bool) (rows : List Row) :
    initialize_csv header b (some rows) = some rows := by
  cases b <;> rfl

theorem initialize_csv_rowsUnchanged (header : List String) (b : Bool)
    (file : Option (List Row)) :
    rowsUnchanged file (initialize_csv header b file) header := by
  cases b with
  | false => left; rfl
  | true =>
    cases file with
    | none => right; exact ⟨rfl, rfl⟩
    | some rows => left; rfl

theorem evalRowData_ok_shape (kvs : List (String × Json)) (now : String)
    (rd : List (String × Json)) (h : evalRowData (.obj kvs) now = .ok rd) :
    ∃ rkvs, (pyGet kvs "results").getD (.obj []) = .obj rkvs ∧
      rd = [("researchId", (pyGet kvs "researchId").getD (.str ("MISSING_ID_" ++ now))),
            ("timestamp", (pyGet kvs "timestamp").getD (.str now)),
            ("age", (pyGet kvs "age").getD .null),
            ("sex", (pyGet kvs "sex").getD .null),
            ("renalInputMethod", (pyGet kvs "renalInputMethod").getD .null),
            ("serumCreatinine", (pyGet kvs "serumCreatinine").getD .null),
            ("eGFR", (pyGet kvs "eGFR").getD .null),
            ("renalStatus", (pyGet kvs "renalStatus").getD .null),
            ("fallsHistory", (pyGet kvs "fallsHistory").getD .null),
            ("knownMedicationsJson",
              .str (dumps ((pyGet kvs "knownMedications").getD (.arr [])))),
            ("otherMedicationsJson",
              .str (dumps ((pyGet kvs "otherMedications").getD (.arr [])))),
            ("totalACB", (pyGet rkvs "totalACB").getD .null),
            ("beersAlertsCount", (pyGet rkvs "beersAlerts").getD .null),
            ("stoppAlertsCount", (pyGet rkvs "stoppAlerts").getD .null)] := by
  rw [evalRowData] at h
  rcases hres : (pyGet kvs "results").getD (.obj []) with _ | _ | _ | _ | _ | rkvs <;>
    rw [hres] at h
  case obj =>
    refine ⟨rkvs, rfl, ?_⟩
    simpa using h.symm
  all_goals simp at h

theorem suggRowData_ok_shape (kvs : List (String × Json)) (now : String)
    (rd : List (String × Json)) (h : suggRowData (.obj kvs) now = .ok rd) :
    ((pyGet kvs "medicationName").getD .null).truthy = true ∧
    ((pyGet kvs "details").getD .null).truthy = true ∧
    rd = [("timestamp", (pyGet kvs "timestamp").getD (.str now)),
          ("medicationName", (pyGet kvs "medicationName").getD .null),
          ("details", (pyGet kvs "details").getD .null),
          ("email", (pyGet kvs "email").getD .null)] := by
  rw [suggRowData] at h
  by_cases hmn : ((pyGet kvs "medicationName").getD .null).truthy
  · by_cases hdt : ((pyGet kvs "details").getD .null).truthy
    · rw [if_neg (by simp [hmn, hdt])] at h
      simp only [Except.ok.injEq] at h
      exact ⟨hmn, hdt, h.symm⟩
    · rw [if_pos (by simp [hdt])] at h
      simp at h
  · rw [if_pos (by simp [hmn])] at h
    simp at h

theorem finalRowOf_eval (v1 v2 v3 v4 v5 v6 v7 v8 v9 v10 v11 v12 v13 v14 : Json) :
    finalRowOf [("researchId", v1), ("timestamp", v2), ("age", v3), ("sex", v4),
      ("renalInputMethod", v5), ("serumCreatinine", v6), ("eGFR", v7), ("renalStatus", v8),
      ("fallsHistory", v9), ("knownMedicationsJson", v10), ("otherMedicationsJson", v11),
      ("totalACB", v12), ("beersAlertsCount", v13), ("stoppAlertsCount", v14)]
      EVAL_CSV_HEADER = [v1, v2, v3, v4, v5, v6, v7, v8, v9, v10, v11, v12, v13, v14] := rfl

theorem finalRowOf_sugg (v1 v2 v3 v4 : Json) :
    finalRowOf [("timestamp", v1), ("medicationName", v2), ("details", v3), ("email", v4)]
      SUGGESTIONS_HEADER = [v1, v2, v3, v4] := rfl

theorem save_data_accepted (req : Option Json) (now : String) (b : Bool)
    (file : Option (List Row)) (h : (save_data req now b file).1.status = 200) :
    ∃ rows, initialize_csv EVAL_CSV_HEADER b file = some rows ∧
      (save_data req now b file).2 = some (rows ++ [evalRowOf ⟨req, now, b⟩]) := by
  cases req with
  | none =>
    rw [save_data.eq_def] at h
    dsimp only [] at h
    simp [jsonError] at h
  | some data =>
    rw [save_data.eq_def] at h ⊢
    dsimp only [] at h ⊢
    rcases hrd : evalRowData data now with e | rd
    · simp [hrd, jsonError] at h
    · rcases hf : initialize_csv EVAL_CSV_HEADER b file with _ | rows
      · simp [hrd, hf, jsonError] at h
      · refine ⟨rows, rfl, ?_⟩
        simp [evalRowOf, hrd]

theorem runEval_accepted (steps : List EvalStep) (rows : List Row)
    (hall : ∀ r ∈ (runEval steps (some rows)).1, r.status = 200) :
    (runEval steps (some rows)).2 = some (rows ++ steps.map evalRowOf) := by
  induction steps generalizing rows with
  | nil => simp [runEval]
  | cons s ss ih =>
    rw [runEval] at hall ⊢
    have h1 : (save_data s.req s.now s.initOk (some rows)).1.status = 200 :=
      hall _ (by simp)
    obtain ⟨rows2, hinit, hpost⟩ := save_data_accepted s.req s.now s.initOk (some rows) h1
    rw [initialize_csv_some] at hinit
    obtain rfl : rows = rows2 := by injection hinit
    rw [hpost] at hall ⊢
    have hrest := ih (rows ++ [evalRowOf ⟨s.req, s.now, s.initOk⟩])
      (fun r hr => hall r (by simp [hr]))
    show (runEval ss _).2 = _
    rw [hrest]
    simp [List.append_assoc]

/-- Helper for C1, evaluation kind: a non-empty all-accepted run from a
fresh store ends with exactly the header row plus one row per step. -/
theorem runEval_fresh (steps : List EvalStep) (hne : steps ≠ [])
    (hall : ∀ r ∈ (runEval steps none).1, r.status = 200) :
    (runEval steps none).2 =
      some (headerRowOf EVAL_CSV_HEADER :: steps.map evalRowOf) := by
  cases steps with
  | nil => exact absurd rfl hne
  | cons s ss =>
    rw [runEval] at hall ⊢
    have h1 : (save_data s.req s.now s.initOk none).1.status = 200 := hall _ (by simp)
    obtain ⟨rows, hinit, hpost⟩ := save_data_accepted s.req s.now s.initOk none h1
    have hrows : rows = [headerRowOf EVAL_CSV_HEADER] := by
      cases hb : s.initOk with
      | false => rw [hb] at hinit; simp [initialize_csv] at hinit
      | true => rw [hb] at hinit; simp [initialize_csv] at hinit; exact hinit.symm
    rw [hpost] at hall ⊢
    have hrest := runEval_accepted ss (rows ++ [evalRowOf ⟨s.req, s.now, s.initOk⟩])
      (fun r hr => hall r (by simp [hr]))
    show (runEval ss _).2 = _
    rw [hrest, hrows]
    simp

theorem save_suggestion_accepted (req : Option Json) (now : String) (b : Bool)
    (file : Option (List Row)) (h : (save_suggestion req now b file).1.status = 200) :
    ∃ rows, initialize_csv SUGGESTIONS_HEADER b file = some rows ∧
      (save_suggestion req now b file).2 = some (rows ++ [suggRowOf ⟨req, now, b⟩]) := by
  cases req with
  | none =>
    rw [save_suggestion.eq_def] at h
    dsimp only [] at h
    simp [jsonError] at h
  | some data =>
    rw [save_suggestion.eq_def] at h ⊢
    dsimp only [] at h ⊢
    rcases hrd : suggRowData data now with e | rd
    · cases e <;> simp [hrd, jsonError] at h
    · rcases hf : initialize_csv SUGGESTIONS_HEADER b file with _ | rows
      · simp [hrd, hf, jsonError] at h
      · refine ⟨rows, rfl, ?_⟩
        simp [suggRowOf, hrd]

theorem runSugg_accepted (steps : List SuggStep) (rows : List Row)
    (hall : ∀ r ∈ (runSugg steps (some rows)).1, r.status = 200) :
    (runSugg steps (some rows)).2 = some (rows ++ steps.map suggRowOf) := by
  induction steps generalizing rows with
  | nil => simp [runSugg]
  | cons s ss ih =>
    rw [runSugg] at hall ⊢
    have h1 : (save_suggestion s.req s.now s.initOk (some rows)).1.status = 200 :=
      hall _ (by simp)
    obtain ⟨rows2, hinit, hpost⟩ := save_suggestion_accepted s.req s.now s.initOk
      (some rows) h1
    rw [initialize_csv_some] at hinit
    obtain rfl : rows = rows2 := by injection hinit
    rw [hpost] at hall ⊢
    have hrest := ih (rows ++ [suggRowOf ⟨s.req, s.now, s.initOk⟩])
      (fun r hr => hall r (by simp [hr]))
    show (runSugg ss _).2 = _
    rw [hrest]
    simp [List.append_assoc]

/-- Helper for C1, suggestion kind: the same fresh-store invariant for
`/save_suggestion` runs. -/
theorem runSugg_fresh (steps : List SuggStep) (hne : steps ≠ [])
    (hall : ∀ r ∈ (runSugg steps none).1, r.status = 200) :
    (runSugg steps none).2 =
      some (headerRowOf SUGGESTIONS_HEADER :: steps.map suggRowOf) := by
  cases steps with
  | nil => exact absurd rfl hne
  | cons s ss =>
    rw [runSugg] at hall ⊢
    have h1 : (save_suggestion s.req s.now s.initOk none).1.status = 200 :=
      hall _ (by simp)
    obtain ⟨rows, hinit, hpost⟩ := save_suggestion_accepted s.req s.now s.initOk none h1
    have hrows : rows = [headerRowOf SUGGESTIONS_HEADER] := by
      cases hb : s.initOk with
      | false => rw [hb] at hinit; simp [initialize_csv] at hinit
      | true => rw [hb] at hinit; simp [initialize_csv] at hinit; exact hinit.symm
    rw [hpost] at hall ⊢
    have hrest := runSugg_accepted ss (rows ++ [suggRowOf ⟨s.req, s.now, s.initOk⟩])
      (fun r hr => hall r (by simp [hr]))
    show (runSugg ss _).2 = _
    rw [hrest, hrows]
    simp

/-- Claim C1: for any non-empty sequence of accepted submissions of one
kind — evaluation or suggestion — starting from that kind's fresh
(nonexistent) store, the store file afterwards holds exactly the header
row followed by one data row per submission, in processing order;
previously appended rows and the header are never rewritten, mutated or
removed by a later append. -/
theorem storeHeaderInvariant :
    (∀ steps : List EvalStep, steps ≠ [] →
      (∀ r ∈ (runEval steps none).1, r.status = 200) →
      (runEval steps none).2 =
        some (headerRowOf EVAL_CSV_HEADER :: steps.map evalRowOf)) ∧
    (∀ steps : List SuggStep, steps ≠ [] →
      (∀ r ∈ (runSugg steps none).1, r.status = 200) →
      (runSugg steps none).2 =
        some (headerRowOf SUGGESTIONS_HEADER :: steps.map suggRowOf)) :=
  ⟨runEval_fresh, runSugg_fresh⟩

theorem storeHeaderInvariant_witness :
    ((runEval [⟨some (Json.obj []), "T1", true⟩,
               ⟨some (Json.obj [("age", Json.num 80)]), "T2", true⟩] none).2 =
      some (headerRowOf EVAL_CSV_HEADER ::
        ([⟨some (Json.obj []), "T1", true⟩,
          ⟨some (Json.obj [("age", Json.num 80)]), "T2", true⟩] : List EvalStep).map
            evalRowOf)) ∧
    ((runSugg [⟨some (Json.obj [("medicationName", Json.str "Aspirin"),
                                ("details", Json.str "note")]), "T1", true⟩,
               ⟨some (Json.obj [("medicationName", Json.str "Ibuprofen"),
                                ("details", Json.str "dose query"),
                                ("email", Json.str "a@b.example")]), "T2", true⟩]
        none).2 =
      some (headerRowOf SUGGESTIONS_HEADER ::
        ([⟨some (Json.obj [("medicationName", Json.str "Aspirin"),
                           ("details", Json.str "note")]), "T1", true⟩,
          ⟨some (Json.obj [("medicationName", Json.str "Ibuprofen"),
                           ("details", Json.str "dose query"),
                           ("email", Json.str "a@b.example")]), "T2", true⟩] :
            List SuggStep).map suggRowOf)) := by
  constructor
  · apply storeHeaderInvariant.1
    · simp
    · intro r hr
      simp only [runEval, save_data, initialize_csv, evalRowData, pyGet, alookup,
        List.find?, jsonMessage, jsonError] at hr
      simp at hr
      rcases hr with rfl | rfl
      all_goals rfl
  · apply storeHeaderInvariant.2
    · simp
    · intro r hr
      simp only [runSugg, save_suggestion, initialize_csv, suggRowData, Json.truthy,
        pyGet, alookup, List.find?, jsonMessage, jsonError] at hr
      simp at hr
      rcases hr with rfl | rfl
      all_goals rfl

theorem absentOrEmpty_not_truthy (kvs : List (String × Json)) (k : String)
    (h : absentOrEmpty kvs k) : ((pyGet kvs k).getD .null).truthy = false := by
  rcases h with h | h | h <;> rw [pyGet, h] <;> rfl

/-- Claim C2: a suggestion payload whose `medicationName` or `details` is
absent or empty is rejected with the 400 `ValueError` response whose
reason names the missing fields, and no record is appended to the
suggestion store (the initializer may at most create the fresh store
file with its header). -/
theorem suggestionRequiredFieldRejection (kvs : List (String × Json)) (now : String)
    (b : Bool) (file : Option (List Row))
    (h : absentOrEmpty kvs "medicationName" ∨ absentOrEmpty kvs "details") :
    (save_suggestion (some (.obj kvs)) now b file).1 =
      jsonError "Missing required suggestion fields (medicationName or details)" 400 ∧
    rowsUnchanged file (save_suggestion (some (.obj kvs)) now b file).2
      SUGGESTIONS_HEADER := by
  have hval : suggRowData (.obj kvs) now = .error .validation := by
    rw [suggRowData]
    rcases h with h | h
    · rw [if_pos (by simp [absentOrEmpty_not_truthy kvs _ h])]
    · rw [if_pos (by simp [absentOrEmpty_not_truthy kvs _ h])]
  rw [save_suggestion.eq_def]
  dsimp only []
  rw [hval]
  exact ⟨rfl, initialize_csv_rowsUnchanged _ b file⟩

theorem suggestionRequiredFieldRejection_witness :
    (save_suggestion (some (.obj [("medicationName", Json.str "Aspirin")]))
        "2026-10-12T10:00:00" true none).1 =
      jsonError "Missing required suggestion fields (medicationName or details)" 400 ∧
    rowsUnchanged none
      (save_suggestion (some (.obj [("medicationName", Json.str "Aspirin")]))
        "2026-10-12T10:00:00" true none).2 SUGGESTIONS_HEADER :=
  suggestionRequiredFieldRejection _ _ _ _ (Or.inr (Or.inl rfl))

/-- Claim C5: `initialize_csv` is idempotent: initializing a fresh store
and calling again (with any outcome of the directory oracle) leaves
exactly one header row and zero data rows, and any call on an existing
file is a no-op — it never deletes, truncates or rewrites it. -/
theorem storeInitIdempotent (header : List String) (b : Bool) (rows : List Row) :
    initialize_csv header true none = some [headerRowOf header] ∧
    initialize_csv header b (initialize_csv header true none) =
      some [headerRowOf header] ∧
    initialize_csv header b (some rows) = some rows := by
  refine ⟨rfl, ?_, initialize_csv_some header b rows⟩
  cases b <;> rfl

/-- Claim C6 counterexample: a request whose body is not JSON is rejected
with 400, yet the store file for the evaluation kind has been created on
behalf of that rejected request — the Store Initializer ran before the
shape check, not after. -/
theorem shapeCheckOrderCounterexample :
    (save_data none "2026-10-12T10:00:00" true none).1.status = 400 ∧
    (save_data none "2026-10-12T10:00:00" true none).2 =
      some [headerRowOf EVAL_CSV_HEADER] :=
  ⟨rfl, rfl⟩

theorem save_reject_nonObject (req : Option Json) (now : String) (b : Bool)
    (fileE fileS : Option (List Row)) (hnon : nonObject req) :
    (save_data req now b fileE).1.status = 400 ∧
    (save_data req now b fileE).1.error.isSome = true ∧
    (save_data req now b fileE).2 = initialize_csv EVAL_CSV_HEADER b fileE ∧
    (save_suggestion req now b fileS).1.status = 400 ∧
    (save_suggestion req now b fileS).1.error.isSome = true ∧
    (save_suggestion req now b fileS).2 = initialize_csv SUGGESTIONS_HEADER b fileS := by
  cases req with
  | none => exact ⟨rfl, rfl, rfl, rfl, rfl, rfl⟩
  | some data =>
    cases data with
    | obj kvs => exact absurd hnon (by simp [nonObject])
    | null => exact ⟨rfl, rfl, rfl, rfl, rfl, rfl⟩
    | bool x => exact ⟨rfl, rfl, rfl, rfl, rfl, rfl⟩
    | num x => exact ⟨rfl, rfl, rfl, rfl, rfl, rfl⟩
    | str x => exact ⟨rfl, rfl, rfl, rfl, rfl, rfl⟩
    | arr x => exact ⟨rfl, rfl, rfl, rfl, rfl, rfl⟩

/-- Claim C6 (amended): the Store Initializer runs unconditionally before
the shape check, so a payload that is not a structured key-value object
is still rejected with a 400 MalformedRequest-class response and no
record is appended, but the post-state is the initializer applied to the
pre-state — the store file may be created on behalf of the rejected
request. -/
theorem storeInitPrecedesShapeCheck (req : Option Json) (now : String) (b : Bool)
    (fileE fileS : Option (List Row)) (hnon : nonObject req) :
    (save_data req now b fileE).1.status = 400 ∧
    (save_data req now b fileE).2 = initialize_csv EVAL_CSV_HEADER b fileE ∧
    (save_suggestion req now b fileS).1.status = 400 ∧
    (save_suggestion req now b fileS).2 = initialize_csv SUGGESTIONS_HEADER b fileS := by
  obtain ⟨h1, _, h3, h4, _, h6⟩ := save_reject_nonObject req now b fileE fileS hnon
  exact ⟨h1, h3, h4, h6⟩

theorem storeInitPrecedesShapeCheck_witness :
    (save_data (some (Json.arr [])) "T" true none).1.status = 400 ∧
    (save_data (some (Json.arr [])) "T" true none).2 =
      initialize_csv EVAL_CSV_HEADER true none ∧
    (save_suggestion (some (Json.arr [])) "T" true none).1.status = 400 ∧
    (save_suggestion (some (Json.arr [])) "T" true none).2 =
      initialize_csv SUGGESTIONS_HEADER true none :=
  storeInitPrecedesShapeCheck (some (Json.arr [])) "T" true none none trivial

/-- Claim C7: a request body that is not a structured key-value object — a
bare array, a bare string or any other non-object value, or an absent or
non-JSON body — is rejected by both endpoints with a 4xx error response,
and no record is appended to either store. -/
theorem malformedBodyRejection (req : Option Json) (now : String) (b : Bool)
    (fileE fileS : Option (List Row)) (hnon : nonObject req) :
    (save_data req now b fileE).1.status = 400 ∧
    (save_data req now b fileE).1.error.isSome = true ∧
    rowsUnchanged fileE (save_data req now b fileE).2 EVAL_CSV_HEADER ∧
    (save_suggestion req now b fileS).1.status = 400 ∧
    (save_suggestion req now b fileS).1.error.isSome = true ∧
    rowsUnchanged fileS (save_suggestion req now b fileS).2 SUGGESTIONS_HEADER := by
  obtain ⟨h1, h2, h3, h4, h5, h6⟩ := save_reject_nonObject req now b fileE fileS hnon
  refine ⟨h1, h2, ?_, h4, h5, ?_⟩
  · rw [h3]; exact initialize_csv_rowsUnchanged _ b fileE
  · rw [h6]; exact initialize_csv_rowsUnchanged _ b fileS

theorem malformedBodyRejection_witness :
    (save_data (some (Json.str "x")) "T" true none).1.status = 400 ∧
    (save_data (some (Json.str "x")) "T" true none).1.error.isSome = true ∧
    rowsUnchanged none (save_data (some (Json.str "x")) "T" true none).2
      EVAL_CSV_HEADER ∧
    (save_suggestion (some (Json.str "x")) "T" true none).1.status = 400 ∧
    (save_suggestion (some (Json.str "x")) "T" true none).1.error.isSome = true ∧
    rowsUnchanged none (save_suggestion (some (Json.str "x")) "T" true none).2
      SUGGESTIONS_HEADER :=
  malformedBodyRejection (some (Json.str "x")) "T" true none none trivial

/-- Claim C3: in every accepted evaluation row, the `knownMedicationsJson`
and `otherMedicationsJson` columns hold exactly the canonical JSON text
encoding of the submitted nested value, the canonical decoder recovers
that value exactly (round-trip), and an absent array field serializes to
the encoding of the empty array, which is the text `[]`. -/
theorem evalNestedSerializationRoundTrip (kvs : List (String × Json)) (now : String)
    (rd : List (String × Json)) (h : evalRowData (.obj kvs) now = .ok rd) :
    (finalRowOf rd EVAL_CSV_HEADER)[9]? =
      some (.str (dumps ((pyGet kvs "knownMedications").getD (.arr [])))) ∧
    loads (dumps ((pyGet kvs "knownMedications").getD (.arr []))) =
      some ((pyGet kvs "knownMedications").getD (.arr [])) ∧
    (finalRowOf rd EVAL_CSV_HEADER)[10]? =
      some (.str (dumps ((pyGet kvs "otherMedications").getD (.arr [])))) ∧
    loads (dumps ((pyGet kvs "otherMedications").getD (.arr []))) =
      some ((pyGet kvs "otherMedications").getD (.arr [])) ∧
    (pyGet kvs "knownMedications" = none →
      (pyGet kvs "knownMedications").getD (.arr []) = .arr []) ∧
    dumps (.arr []) = "[]" := by
  obtain ⟨rkvs, hres, hrd⟩ := evalRowData_ok_shape kvs now rd h
  subst hrd
  rw [finalRowOf_eval]
  refine ⟨rfl, loads_dumps _, rfl, loads_dumps _, ?_, rfl⟩
  intro habs
  rw [habs]
  rfl

theorem evalNestedSerializationRoundTrip_witness :
    (finalRowOf
        [("researchId", Json.str ("MISSING_ID_" ++ "T")), ("timestamp", Json.str "T"),
         ("age", Json.null), ("sex", Json.null), ("renalInputMethod", Json.null),
         ("serumCreatinine", Json.null), ("eGFR", Json.null), ("renalStatus", Json.null),
         ("fallsHistory", Json.null),
         ("knownMedicationsJson",
           Json.str (dumps (Json.arr [Json.obj [("name", Json.str "Aspirin"),
             ("dose", Json.str "75mg")]]))),
         ("otherMedicationsJson", Json.str (dumps (Json.arr []))),
         ("totalACB", Json.null), ("beersAlertsCount", Json.null),
         ("stoppAlertsCount", Json.null)] EVAL_CSV_HEADER)[9]? =
      some (.str (dumps ((pyGet [("knownMedications",
        Json.arr [Json.obj [("name", Json.str "Aspirin"), ("dose", Json.str "75mg")]])]
          "knownMedications").getD (.arr [])))) ∧
    loads (dumps ((pyGet [("knownMedications",
        Json.arr [Json.obj [("name", Json.str "Aspirin"), ("dose", Json.str "75mg")]])]
          "knownMedications").getD (.arr []))) =
      some ((pyGet [("knownMedications",
        Json.arr [Json.obj [("name", Json.str "Aspirin"), ("dose", Json.str "75mg")]])]
          "knownMedications").getD (.arr [])) ∧
    (finalRowOf
        [("researchId", Json.str ("MISSING_ID_" ++ "T")), ("timestamp", Json.str "T"),
         ("age", Json.null), ("sex", Json.null), ("renalInputMethod", Json.null),
         ("serumCreatinine", Json.null), ("eGFR", Json.null), ("renalStatus", Json.null),
         ("fallsHistory", Json.null),
         ("knownMedicationsJson",
           Json.str (dumps (Json.arr [Json.obj [("name", Json.str "Aspirin"),
             ("dose", Json.str "75mg")]]))),
         ("otherMedicationsJson", Json.str (dumps (Json.arr []))),
         ("totalACB", Json.null), ("beersAlertsCount", Json.null),
         ("stoppAlertsCount", Json.null)] EVAL_CSV_HEADER)[10]? =
      some (.str (dumps ((pyGet [("knownMedications",
        Json.arr [Json.obj [("name", Json.str "Aspirin"), ("dose", Json.str "75mg")]])]
          "otherMedications").getD (.arr [])))) ∧
    loads (dumps ((pyGet [("knownMedications",
        Json.arr [Json.obj [("name", Json.str "Aspirin"), ("dose", Json.str "75mg")]])]
          "otherMedications").getD (.arr []))) =
      some ((pyGet [("knownMedications",
        Json.arr [Json.obj [("name", Json.str "Aspirin"), ("dose", Json.str "75mg")]])]
          "otherMedications").getD (.arr [])) ∧
    (pyGet [("knownMedications",
        Json.arr [Json.obj [("name", Json.str "Aspirin"), ("dose", Json.str "75mg")]])]
          "knownMedications" = none →
      (pyGet [("knownMedications",
        Json.arr [Json.obj [("name", Json.str "Aspirin"), ("dose", Json.str "75mg")]])]
          "knownMedications").getD (.arr []) = .arr []) ∧
    dumps (.arr []) = "[]" :=
  evalNestedSerializationRoundTrip
    [("knownMedications",
      Json.arr [Json.obj [("name", Json.str "Aspirin"), ("dose", Json.str "75mg")]])]
    "T" _ rfl

theorem isIsoTimestamp_ne_empty (s : String) (h : isIsoTimestamp s = true) : s ≠ "" := by
  intro he
  subst he
  exact absurd h (by decide)

/-- Claim C4: an evaluation payload that omits both `timestamp` and
`researchId` is accepted with both columns synthesized and non-empty:
the `timestamp` column is the current-time ISO string and the
`researchId` column is the sentinel `MISSING_ID_<now>`, a non-empty
string carrying the `MISSING_ID_` marker followed by the current time —
distinguishable from ordinary caller-supplied identifiers.  (`now` is the
value of `datetime.now().isoformat()`, assumed well-formed.) -/
theorem evalDefaultSubstitution (kvs : List (String × Json)) (now : String)
    (rd : List (String × Json)) (hr : alookup kvs "researchId" = none)
    (ht : alookup kvs "timestamp" = none) (hiso : isIsoTimestamp now = true)
    (h : evalRowData (.obj kvs) now = .ok rd) :
    (finalRowOf rd EVAL_CSV_HEADER)[0]? = some (.str ("MISSING_ID_" ++ now)) ∧
    (finalRowOf rd EVAL_CSV_HEADER)[1]? = some (.str now) ∧
    ("MISSING_ID_" ++ now) ≠ "" ∧
    now ≠ "" ∧
    isIsoTimestamp now = true ∧
    (∃ t, ("MISSING_ID_" ++ now) = "MISSING_ID_" ++ t ∧ isIsoTimestamp t = true) := by
  obtain ⟨rkvs, hres, hrd⟩ := evalRowData_ok_shape kvs now rd h
  subst hrd
  rw [finalRowOf_eval]
  refine ⟨?_, ?_, ?_, isIsoTimestamp_ne_empty now hiso, hiso, now, rfl, hiso⟩
  · simp only [pyGet]
    rw [hr]
    rfl
  · simp only [pyGet]
    rw [ht]
    rfl
  · intro he
    have h2 : ("MISSING_ID_" ++ now).data = [] := by rw [he]
    rw [String.data_append] at h2
    rcases List.append_eq_nil.mp h2 with ⟨h3, _⟩
    exact absurd h3 (by decide)

theorem evalDefaultSubstitution_witness :
    (finalRowOf
        [("researchId", Json.str ("MISSING_ID_" ++ "2026-10-12T10:00:00")),
         ("timestamp", Json.str "2026-10-12T10:00:00"),
         ("age", Json.num 80), ("sex", Json.null), ("renalInputMethod", Json.null),
         ("serumCreatinine", Json.null), ("eGFR", Json.null), ("renalStatus", Json.null),
         ("fallsHistory", Json.null),
         ("knownMedicationsJson", Json.str (dumps (Json.arr []))),
         ("otherMedicationsJson", Json.str (dumps (Json.arr []))),
         ("totalACB", Json.null), ("beersAlertsCount", Json.null),
         ("stoppAlertsCount", Json.null)] EVAL_CSV_HEADER)[0]? =
      some (.str ("MISSING_ID_" ++ "2026-10-12T10:00:00")) ∧
    (finalRowOf
        [("researchId", Json.str ("MISSING_ID_" ++ "2026-10-12T10:00:00")),
         ("timestamp", Json.str "2026-10-12T10:00:00"),
         ("age", Json.num 80), ("sex", Json.null), ("renalInputMethod", Json.null),
         ("serumCreatinine", Json.null), ("eGFR", Json.null), ("renalStatus", Json.null),
         ("fallsHistory", Json.null),
         ("knownMedicationsJson", Json.str (dumps (Json.arr []))),
         ("otherMedicationsJson", Json.str (dumps (Json.arr []))),
         ("totalACB", Json.null), ("beersAlertsCount", Json.null),
         ("stoppAlertsCount", Json.null)] EVAL_CSV_HEADER)[1]? =
      some (.str "2026-10-12T10:00:00") ∧
    ("MISSING_ID_" ++ "2026-10-12T10:00:00") ≠ "" ∧
    "2026-10-12T10:00:00" ≠ "" ∧
    isIsoTimestamp "2026-10-12T10:00:00" = true ∧
    (∃ t, ("MISSING_ID_" ++ "2026-10-12T10:00:00") = "MISSING_ID_" ++ t ∧
      isIsoTimestamp t = true) :=
  evalDefaultSubstitution [("age", Json.num 80)] "2026-10-12T10:00:00" _ rfl rfl
    (by decide) rfl

/-- Claim C8: every accepted row of either kind has exactly one value per
header column, the row dict keys equal the declared header in order (so
the written cells are the row values in header order), and an omitted
optional field (`age` for evaluation, `email` for suggestion) appears as
the `None`/empty cell in its column — never a shortened or shifted row. -/
theorem columnCompleteness :
    (∀ (kvs : List (String × Json)) (now : String) (rd : List (String × Json)),
      evalRowData (.obj kvs) now = .ok rd →
        (finalRowOf rd EVAL_CSV_HEADER).length = EVAL_CSV_HEADER.length ∧
        rd.map Prod.fst = EVAL_CSV_HEADER ∧
        finalRowOf rd EVAL_CSV_HEADER = rd.map Prod.snd ∧
        (alookup kvs "age" = none →
          (finalRowOf rd EVAL_CSV_HEADER)[2]? = some Json.null)) ∧
    (∀ (kvs : List (String × Json)) (now : String) (rd : List (String × Json)),
      suggRowData (.obj kvs) now = .ok rd →
        (finalRowOf rd SUGGESTIONS_HEADER).length = SUGGESTIONS_HEADER.length ∧
        rd.map Prod.fst = SUGGESTIONS_HEADER ∧
        finalRowOf rd SUGGESTIONS_HEADER = rd.map Prod.snd ∧
        (alookup kvs "email" = none →
          (finalRowOf rd SUGGESTIONS_HEADER)[3]? = some Json.null)) := by
  constructor
  · intro kvs now rd h
    obtain ⟨rkvs, hres, hrd⟩ := evalRowData_ok_shape kvs now rd h
    subst hrd
    rw [finalRowOf_eval]
    refine ⟨rfl, rfl, rfl, ?_⟩
    intro habs
    simp only [pyGet]
    rw [habs]
    rfl
  · intro kvs now rd h
    obtain ⟨hmn, hdt, hrd⟩ := suggRowData_ok_shape kvs now rd h
    subst hrd
    rw [finalRowOf_sugg]
    refine ⟨rfl, rfl, rfl, ?_⟩
    intro habs
    simp only [pyGet]
    rw [habs]
    rfl

theorem columnCompleteness_witness :
    ((finalRowOf
        [("researchId", Json.str ("MISSING_ID_" ++ "T")), ("timestamp", Json.str "T"),
         ("age", Json.null), ("sex", Json.null), ("renalInputMethod", Json.null),
         ("serumCreatinine", Json.null), ("eGFR", Json.null), ("renalStatus", Json.null),
         ("fallsHistory", Json.null),
         ("knownMedicationsJson", Json.str (dumps (Json.arr []))),
         ("otherMedicationsJson", Json.str (dumps (Json.arr []))),
         ("totalACB", Json.null), ("beersAlertsCount", Json.null),
         ("stoppAlertsCount", Json.null)] EVAL_CSV_HEADER).length =
      EVAL_CSV_HEADER.length ∧
    ([("researchId", Json.str ("MISSING_ID_" ++ "T")), ("timestamp", Json.str "T"),
      ("age", Json.null), ("sex", Json.null), ("renalInputMethod", Json.null),
      ("serumCreatinine", Json.null), ("eGFR", Json.null), ("renalStatus", Json.null),
      ("fallsHistory", Json.null),
      ("knownMedicationsJson", Json.str (dumps (Json.arr []))),
      ("otherMedicationsJson", Json.str (dumps (Json.arr []))),
      ("totalACB", Json.null), ("beersAlertsCount", Json.null),
      ("stoppAlertsCount", Json.null)] : List (String × Json)).map Prod.fst =
        EVAL_CSV_HEADER ∧
    finalRowOf
        [("researchId", Json.str ("MISSING_ID_" ++ "T")), ("timestamp", Json.str "T"),
         ("age", Json.null), ("sex", Json.null), ("renalInputMethod", Json.null),
         ("serumCreatinine", Json.null), ("eGFR", Json.null), ("renalStatus", Json.null),
         ("fallsHistory", Json.null),
         ("knownMedicationsJson", Json.str (dumps (Json.arr []))),
         ("otherMedicationsJson", Json.str (dumps (Json.arr []))),
         ("totalACB", Json.null), ("beersAlertsCount", Json.null),
         ("stoppAlertsCount", Json.null)] EVAL_CSV_HEADER =
      ([("researchId", Json.str ("MISSING_ID_" ++ "T")), ("timestamp", Json.str "T"),
        ("age", Json.null), ("sex", Json.null), ("renalInputMethod", Json.null),
        ("serumCreatinine", Json.null), ("eGFR", Json.null), ("renalStatus", Json.null),
        ("fallsHistory", Json.null),
        ("knownMedicationsJson", Json.str (dumps (Json.arr []))),
        ("otherMedicationsJson", Json.str (dumps (Json.arr []))),
        ("totalACB", Json.null), ("beersAlertsCount", Json.null),
        ("stoppAlertsCount", Json.null)] : List (String × Json)).map Prod.snd ∧
    (alookup [] "age" = none →
      (finalRowOf
        [("researchId", Json.str ("MISSING_ID_" ++ "T")), ("timestamp", Json.str "T"),
         ("age", Json.null), ("sex", Json.null), ("renalInputMethod", Json.null),
         ("serumCreatinine", Json.null), ("eGFR", Json.null), ("renalStatus", Json.null),
         ("fallsHistory", Json.null),
         ("knownMedicationsJson", Json.str (dumps (Json.arr []))),
         ("otherMedicationsJson", Json.str (dumps (Json.arr []))),
         ("totalACB", Json.null), ("beersAlertsCount", Json.null),
         ("stoppAlertsCount", Json.null)] EVAL_CSV_HEADER)[2]? = some Json.null)) ∧
    ((finalRowOf
        [("timestamp", Json.str "T"), ("medicationName", Json.str "Aspirin"),
         ("details", Json.str "note"), ("email", Json.null)] SUGGESTIONS_HEADER).length =
      SUGGESTIONS_HEADER.length ∧
    ([("timestamp", Json.str "T"), ("medicationName", Json.str "Aspirin"),
      ("details", Json.str "note"), ("email", Json.null)] :
        List (String × Json)).map Prod.fst = SUGGESTIONS_HEADER ∧
    finalRowOf
        [("timestamp", Json.str "T"), ("medicationName", Json.str "Aspirin"),
         ("details", Json.str "note"), ("email", Json.null)] SUGGESTIONS_HEADER =
      ([("timestamp", Json.str "T"), ("medicationName", Json.str "Aspirin"),
        ("details", Json.str "note"), ("email", Json.null)] :
          List (String × Json)).map Prod.snd ∧
    (alookup [("medicationName", Json.str "Aspirin"), ("details", Json.str "note")]
        "email" = none →
      (finalRowOf
        [("timestamp", Json.str "T"), ("medicationName", Json.str "Aspirin"),
         ("details", Json.str "note"), ("email", Json.null)]
          SUGGESTIONS_HEADER)[3]? = some Json.null)) :=
  ⟨columnCompleteness.1 [] "T" _ rfl,
   columnCompleteness.2
     [("medicationName", Json.str "Aspirin"), ("details", Json.str "note")] "T" _ rfl⟩

/-- Claim C9: a Store Initializer failure never by itself rejects a
submission to either endpoint.  At append time each endpoint re-checks
store existence: if its store file is missing after initialization, the
request is rejected with that endpoint's 500 storage error and nothing is
persisted; otherwise — in particular whenever the store already existed,
even if the initializer oracle failed — the row is appended and the
request is accepted. -/
theorem appendExistenceGuard :
    (∀ (data : Json) (now : String) (rd : List (String × Json)) (b : Bool)
        (file : Option (List Row)), evalRowData data now = .ok rd →
      (initialize_csv EVAL_CSV_HEADER b file = none →
        save_data (some data) now b file =
          (jsonError "Could not access data storage" 500, none)) ∧
      (∀ rows, initialize_csv EVAL_CSV_HEADER b file = some rows →
        save_data (some data) now b file =
          (jsonMessage "Evaluation data saved successfully",
            some (rows ++ [finalRowOf rd EVAL_CSV_HEADER])))) ∧
    (∀ (data : Json) (now : String) (rd : List (String × Json)) (b : Bool)
        (file : Option (List Row)), suggRowData data now = .ok rd →
      (initialize_csv SUGGESTIONS_HEADER b file = none →
        save_suggestion (some data) now b file =
          (jsonError "Could not access suggestion storage" 500, none)) ∧
      (∀ rows, initialize_csv SUGGESTIONS_HEADER b file = some rows →
        save_suggestion (some data) now b file =
          (jsonMessage "Suggestion saved successfully",
            some (rows ++ [finalRowOf rd SUGGESTIONS_HEADER])))) := by
  constructor
  · intro data now rd b file h
    constructor
    · intro hnone
      rw [save_data.eq_def]
      dsimp only []
      rw [h, hnone]
    · intro rows hsome
      rw [save_data.eq_def]
      dsimp only []
      rw [h, hsome]
  · intro data now rd b file h
    constructor
    · intro hnone
      rw [save_suggestion.eq_def]
      dsimp only []
      rw [h, hnone]
    · intro rows hsome
      rw [save_suggestion.eq_def]
      dsimp only []
      rw [h, hsome]

theorem appendExistenceGuard_witness :
    ((initialize_csv EVAL_CSV_HEADER false none = none →
      save_data (some (Json.obj [])) "T" false none =
        (jsonError "Could not access data storage" 500, none)) ∧
    (∀ rows, initialize_csv EVAL_CSV_HEADER false none = some rows →
      save_data (some (Json.obj [])) "T" false none =
        (jsonMessage "Evaluation data saved successfully",
          some (rows ++ [finalRowOf
            [("researchId", Json.str ("MISSING_ID_" ++ "T")), ("timestamp", Json.str "T"),
             ("age", Json.null), ("sex", Json.null), ("renalInputMethod", Json.null),
             ("serumCreatinine", Json.null), ("eGFR", Json.null),
             ("renalStatus", Json.null), ("fallsHistory", Json.null),
             ("knownMedicationsJson", Json.str (dumps (Json.arr []))),
             ("otherMedicationsJson", Json.str (dumps (Json.arr []))),
             ("totalACB", Json.null), ("beersAlertsCount", Json.null),
             ("stoppAlertsCount", Json.null)] EVAL_CSV_HEADER])))) ∧
    ((initialize_csv SUGGESTIONS_HEADER false none = none →
      save_suggestion (some (Json.obj [("medicationName", Json.str "Aspirin"),
          ("details", Json.str "note")])) "T" false none =
        (jsonError "Could not access suggestion storage" 500, none)) ∧
    (∀ rows, initialize_csv SUGGESTIONS_HEADER false none = some rows →
      save_suggestion (some (Json.obj [("medicationName", Json.str "Aspirin"),
          ("details", Json.str "note")])) "T" false none =
        (jsonMessage "Suggestion saved successfully",
          some (rows ++ [finalRowOf
            [("timestamp", Json.str "T"), ("medicationName", Json.str "Aspirin"),
             ("details", Json.str "note"), ("email", Json.null)]
              SUGGESTIONS_HEADER])))) :=
  ⟨appendExistenceGuard.1 (Json.obj []) "T" _ false none rfl,
   appendExistenceGuard.2
     (Json.obj [("medicationName", Json.str "Aspirin"), ("details", Json.str "note")])
     "T" _ false none rfl⟩

/-- Claim C10 counterexample: an evaluation payload that is a structured
key-value object — `{"results": 5}` — submitted while the store file
exists is rejected with 400, not accepted with 200: the claim that every
object payload is accepted does not hold. -/
theorem evalNoValidationCounterexample :
    (save_data (some (Json.obj [("results", Json.num 5)])) "T" true
        (some [headerRowOf EVAL_CSV_HEADER])).1.status = 400 ∧
    (save_data (some (Json.obj [("results", Json.num 5)])) "T" true
        (some [headerRowOf EVAL_CSV_HEADER])).1.status ≠ 200 :=
  ⟨rfl, by decide⟩

theorem resultsOk_evalRowData (kvs : List (String × Json)) (now : String)
    (h : resultsOk kvs) : ∃ rd, evalRowData (.obj kvs) now = .ok rd := by
  rw [resultsOk] at h
  rw [evalRowData]
  rcases halo : alookup kvs "results" with _ | v
  · rw [pyGet, halo]
    exact ⟨_, rfl⟩
  · rw [halo] at h
    cases v with
    | obj rkvs =>
      rw [pyGet, halo]
      exact ⟨_, rfl⟩
    | null => exact absurd h (by simp)
    | bool x => exact absurd h (by simp)
    | num x => exact absurd h (by simp)
    | str x => exact absurd h (by simp)
    | arr x => exact absurd h (by simp)

/-- Claim C10 (amended): the evaluation endpoint validates no required
field, but acceptance is not universal: a structured key-value payload is
accepted with 200 (and its row appended) whenever the store file exists
at append time and the `results` field, if present, is itself a key-value
object; a payload whose `results` value is a non-object is rejected 400
by the generic processing handler. -/
theorem evalNoRequiredFields (kvs : List (String × Json)) (now : String) (b : Bool)
    (rows : List Row) (h : resultsOk kvs) :
    (save_data (some (.obj kvs)) now b (some rows)).1 =
      jsonMessage "Evaluation data saved successfully" ∧
    ∃ rd, evalRowData (.obj kvs) now = .ok rd ∧
      (save_data (some (.obj kvs)) now b (some rows)).2 =
        some (rows ++ [finalRowOf rd EVAL_CSV_HEADER]) := by
  obtain ⟨rd, hrd⟩ := resultsOk_evalRowData kvs now h
  rw [save_data.eq_def]
  dsimp only []
  rw [hrd, initialize_csv_some]
  exact ⟨rfl, rd, rfl, rfl⟩

theorem evalNoRequiredFields_witness :
    (save_data (some (.obj [])) "T" true (some [headerRowOf EVAL_CSV_HEADER])).1 =
      jsonMessage "Evaluation data saved successfully" ∧
    ∃ rd, evalRowData (.obj []) "T" = .ok rd ∧
      (save_data (some (.obj [])) "T" true (some [headerRowOf EVAL_CSV_HEADER])).2 =
        some ([headerRowOf EVAL_CSV_HEADER] ++ [finalRowOf rd EVAL_CSV_HEADER]) :=
  evalNoRequiredFields [] "T" true [headerRowOf EVAL_CSV_HEADER] trivial
